import Mathlib

/-!
Shallow embedding of the real-time event-distribution pipeline of the
greenfield agricultural-monitoring repository, together with theorems that
settle the frozen claims about it.

Components modelled, each from its Python source:
* IoT ingestion bridge (`iot-gateway/main.py`, `iot-gateway/publisher.py`)
* Alert producer (`intelligent-service/consumer.py`, `rules_service.py`)
* Notification fan-out manager (`notification-service/websocket_manager.py`)
* API gateway (`api-gateway/main.py`, `proxy.py`, `config.py`)

Machine-level conventions: Python dicts are association lists, JSON values
are a small inductive type, Python exceptions are explicit `Except`/error
constructors, the wall clock and the ISO-8601 parser of the `datetime`
library are parameters of the definitions that use them.
-/

namespace Greenfield

/-- A JSON value as produced by `json.loads`. -/
inductive Json where
  | str (s : String)
  | num (q : ℚ)
  | bool (b : Bool)
  | null
  | arr (elems : List Json)
  | obj (fields : List (String × Json))

/-- Python exceptions that are not `PayloadValidationError` and that the
code under analysis can raise. -/
inductive PyError where
  | typeError
  | keyError (k : String)
  | nameError (v : String)
deriving DecidableEq, Repr

instance {ε α : Type} [DecidableEq ε] [DecidableEq α] : DecidableEq (Except ε α) := fun a b =>
  match a, b with
  | .ok x, .ok y => if h : x = y then .isTrue (by rw [h]) else .isFalse (by simp [h])
  | .error x, .error y => if h : x = y then .isTrue (by rw [h]) else .isFalse (by simp [h])
  | .ok _, .error _ => .isFalse (by simp)
  | .error _, .ok _ => .isFalse (by simp)

/-- Model of an aware-or-naive `datetime.datetime` value: the instant on a
common scale plus the optional `tzinfo` (as a UTC offset in seconds). -/
structure PyDateTime where
  epoch : Int
  tzoffset : Option Int
deriving DecidableEq, Repr

/-- Python dict read `d[k]` for dicts built by `json.loads`: the last
binding of a key wins. -/
def pyGet (d : List (String × Json)) (k : String) : Option Json :=
  d.foldl (fun acc p => if p.1 = k then some p.2 else acc) none

/-- ASCII whitespace stripped by Python's default `str.strip`. -/
def pyIsSpace (c : Char) : Bool :=
  c = ' ' ∨ c = '\t' ∨ c = '\n' ∨ c = '\r' ∨ c = '\x0b' ∨ c = '\x0c'

/-- Truthiness of `s.strip()`: the string has a non-whitespace character. -/
def pyStripNonempty (s : String) : Bool :=
  s.data.any (fun c => ¬ pyIsSpace c)

/-- Python's `k in j` membership test on a JSON value: key membership for a
dict, element equality for a list, substring test for a string, and a
`TypeError` for the non-container scalars. -/
def pyIn (k : String) (j : Json) : Except PyError Bool :=
  match j with
  | .obj fields => .ok (fields.any (fun p => p.1 = k))
  | .arr elems => .ok (elems.any (fun e => match e with | .str s => s = k | _ => false))
  | .str s => .ok (decide (k.data <:+: s.data))
  | _ => .error .typeError

/-- Python's subscript `j[k]` with a string key: dict lookup (`KeyError`
when absent), `TypeError` on every other JSON value. -/
def pySubscript (j : Json) (k : String) : Except PyError Json :=
  match j with
  | .obj fields =>
    match pyGet fields k with
    | some v => .ok v
    | none => .error (.keyError k)
  | _ => .error .typeError

/-- Python's `str.split(sep)` for a one-character separator, on the
character list: splits at every separator, keeping empty pieces. -/
def splitSlash : List Char → List (List Char)
  | [] => [[]]
  | c :: cs =>
    if c = '/' then [] :: splitSlash cs
    else
      match splitSlash cs with
      | [] => [[c]]
      | p :: ps => (c :: p) :: ps

/-- `topic.split('/')` from `mqtt_to_sensor_reading`. -/
def pySplit (s : String) : List String :=
  (splitSlash s.data).map String.mk

/-! ## Device Ingestion Bridge (`iot-gateway/main.py`) -/

def required_fields : List String := ["sensor_type", "value", "unit", "timestamp"]

/-- `all(field in payload for field in required_fields)`, with Python's
short-circuit evaluation: once a field is missing the remaining membership
tests are not evaluated. -/
def allRequiredIn (payload : Json) : Except PyError Bool :=
  required_fields.foldlM
    (fun acc f => if acc then pyIn f payload else pure false) true

/-- Outcome of `validate_payload`: success, a `PayloadValidationError`
(logged and dropped by the caller), or another Python exception. -/
inductive ValidationOutcome where
  | ok
  | invalid (msg : String)
  | pyerror (e : PyError)
deriving Repr

/-- `k in j` is true and `j[k]` is a non-empty string, used for the
`sensor_type`/`unit` checks. -/
def isNonemptyStrJ : Json → Bool
  | .str s => pyStripNonempty s
  | _ => false

/-- `isinstance(v, (int, float))`; Python's `bool` is a subclass of `int`,
so boolean JSON values pass this check too. -/
def isNumericJ : Json → Bool
  | .num _ => true
  | .bool _ => true
  | _ => false

/-- `validate_payload` from `iot-gateway/main.py`, checked in source
order: required fields present, `sensor_type`/`unit` non-empty strings,
`value` numeric, `timestamp` a non-empty string that parses as ISO-8601,
carries a timezone, and is not in the future.  `fromiso` stands for
`datetime.fromisoformat` and `now` for `datetime.now(timezone.utc)`. -/
def validate_payload (fromiso : String → Option PyDateTime) (now : Int)
    (payload : Json) : ValidationOutcome :=
  match allRequiredIn payload with
  | .error e => .pyerror e
  | .ok false => .invalid "Payload mancante di campi obbligatori."
  | .ok true =>
    match pySubscript payload "sensor_type" with
    | .error e => .pyerror e
    | .ok st =>
      if ¬ isNonemptyStrJ st then
        .invalid "Il campo 'sensor_type' deve essere una stringa non vuota."
      else
        match pySubscript payload "unit" with
        | .error e => .pyerror e
        | .ok u =>
          if ¬ isNonemptyStrJ u then
            .invalid "Il campo 'unit' deve essere una stringa non vuota."
          else
            match pySubscript payload "value" with
            | .error e => .pyerror e
            | .ok v =>
              if ¬ isNumericJ v then
                .invalid "Il campo 'value' deve essere un numero."
              else
                match pySubscript payload "timestamp" with
                | .error e => .pyerror e
                | .ok tsv =>
                  match tsv with
                  | .str ts =>
                    if ¬ pyStripNonempty ts then
                      .invalid "Il campo 'timestamp' deve essere una stringa ISO non vuota."
                    else
                      match fromiso ts with
                      | none => .invalid "Il campo 'timestamp' non è in formato ISO valido."
                      | some dt =>
                        match dt.tzoffset with
                        | none => .invalid "Il campo 'timestamp' deve includere informazioni sul fuso orario."
                        | some _ =>
                          if dt.epoch > now then
                            .invalid "Il campo 'timestamp' non può essere nel futuro."
                          else .ok
                  | _ => .invalid "Il campo 'timestamp' deve essere una stringa ISO non vuota."

/-- `SensorReading` from `iot-gateway/schemas.py`; the four payload fields
are kept as the JSON values read out of the dict. -/
structure SensorReading where
  sensor_id : String
  field_id : String
  sensor_type : Json
  value : Json
  unit : Json
  timestamp : Json

/-- `mqtt_to_sensor_reading` from `iot-gateway/main.py`: returns
`.ok none` on the logged-and-dropped paths (short topic, JSON decode
error, `PayloadValidationError`), `.ok (some r)` on success, and
`.error e` when an unexpected exception escapes and is re-raised as a
`ValueError` to the caller.  `payload = none` models a JSON decode
failure of the message bytes. -/
def mqtt_to_sensor_reading (fromiso : String → Option PyDateTime) (now : Int)
    (topic : String) (payload : Option Json) :
    Except PyError (Option SensorReading) :=
  match pySplit topic with
  | _ :: field_id :: sensor_id :: _ :: _ =>
    match payload with
    | none => .ok none
    | some data =>
      match validate_payload fromiso now data with
      | .pyerror e => .error e
      | .invalid _ => .ok none
      | .ok =>
        match pySubscript data "sensor_type", pySubscript data "value",
              pySubscript data "unit", pySubscript data "timestamp" with
        | .ok st, .ok v, .ok u, .ok ts =>
          .ok (some ⟨sensor_id, field_id, st, v, u, ts⟩)
        | _, _, _, _ => .error .typeError
  | _ => .ok none

/-- Routing key computed by `RabbitMQPublisher.publish` in
`iot-gateway/publisher.py` from the reading's dict. -/
def routing_key (r : SensorReading) : String :=
  "field." ++ r.field_id ++ ".device." ++ r.sensor_id

def SYSTEM_STATUS_TOPIC : String := "system/gateway/status"

/-- An inbound MQTT message as seen by `mqtt_loop`; `payload` is the JSON
parse of the message bytes (`none` when unparseable). -/
structure MqttMessage where
  topic : String
  retain : Bool
  payload : Option Json

/-- One iteration of the subscription loop in `mqtt_loop`: skip the status
topic, skip retained messages, convert, and publish the reading (returned
as its routing key and body) when conversion yields one.  An error from
`mqtt_to_sensor_reading` is not caught in the loop body and aborts the
subscription loop. -/
def mqtt_loop_step (fromiso : String → Option PyDateTime) (now : Int)
    (m : MqttMessage) : Except PyError (List (String × SensorReading)) :=
  if m.topic = SYSTEM_STATUS_TOPIC then .ok []
  else if m.retain then .ok []
  else
    match mqtt_to_sensor_reading fromiso now m.topic m.payload with
    | .error e => .error e
    | .ok none => .ok []
    | .ok (some r) => .ok [(routing_key r, r)]

/-! ## Alert Producer (`intelligent-service/rules_service.py`, `consumer.py`) -/

/-- A row of the `Rule` table; rule dicts built by `get_rules_for_field`
carry exactly these fields, so the dict form is identified with the row. -/
structure Rule where
  rule_name : String
  sensor_type : String
  condition : String
  threshold : ℚ
  message : String
  field : String
  owner_id : Nat
deriving DecidableEq, Repr

/-- `get_rules_for_field` from `rules_service.py`.  The redis handle is
`none` when the cache store is unavailable; when available it carries the
cached value of `rules_list:<field>` (`none` = cache miss).  `dbRules` is
the durable store's answer to `select(Rule).where(Rule.field == field)`.
The local variable `rules_dict_list` is assigned only inside the
`if redis:` block of the source, which the `Option`-valued local mirrors;
returning it while unassigned is Python's `NameError`. -/
def get_rules_for_field (redis : Option (Option (List Rule)))
    (dbRules : List Rule) : Except PyError (List Rule) :=
  let cached : Option (List Rule) :=
    match redis with
    | some c => c
    | none => none
  match cached with
  | some rules => .ok rules
  | none =>
    let rules := dbRules
    let rules_dict_list : Option (List Rule) :=
      match redis with
      | some _ => some rules
      | none => none
    match rules_dict_list with
    | some l => .ok l
    | none => .error (.nameError "rules_dict_list")

/-- `violated_rule` from `rules_service.py`: the three comparison
operators, and a `ValueError` for any other condition string. -/
def violated_rule (condition : String) (sensor_value threshold : ℚ) :
    Except String Bool :=
  if condition = ">" then .ok (decide (sensor_value > threshold))
  else if condition = "<" then .ok (decide (sensor_value < threshold))
  else if condition = "==" then .ok (decide (sensor_value = threshold))
  else .error ("Condizione non valida: " ++ condition)

/-- An alert dict produced by the analyzer for one violated rule. -/
structure AlertMsg where
  sensor_type : String
  message : String
  field : String
  owner_id : Nat
deriving DecidableEq, Repr

/-- Observable side effects of `RabbitMQIntelligentConsumer.handle_message`,
in the order the handler performs them. -/
inductive HandlerEffect where
  | dbAdd (a : AlertMsg)
  | dbCommit
  | dbRollback
  | publish (routingKey : String)
deriving DecidableEq, Repr

/-- Final disposition of the incoming message: acknowledged, or requeued
because the handler re-raised inside `message.process(requeue=True)`. -/
inductive Ack where
  | ack
  | requeue
deriving DecidableEq, Repr

def ROUTING_KEY_PREFIX : String := "alerts."

def isPublishEffect : HandlerEffect → Bool
  | .publish _ => true
  | _ => false

/-- `handle_message` from `intelligent-service/consumer.py` for one batch
of violated rules: with no alerts nothing is written or published; with
alerts, each is added to the session and the session committed; a commit
failure (`commitOk = false`) rolls back and re-raises, requeuing the
message; only after a successful commit is each alert published to the
alerts exchange with routing key `alerts.<field>`. -/
def handle_message (alerts : List AlertMsg) (commitOk : Bool) :
    List HandlerEffect × Ack :=
  if alerts.isEmpty then ([], .ack)
  else
    let adds := alerts.map HandlerEffect.dbAdd
    if commitOk then
      (adds ++ [HandlerEffect.dbCommit]
        ++ alerts.map (fun a => HandlerEffect.publish (ROUTING_KEY_PREFIX ++ a.field)),
       .ack)
    else
      (adds ++ [HandlerEffect.dbRollback], .requeue)

/-! ## Notification Fan-out Manager (`notification-service/websocket_manager.py`) -/

/-- A WebSocket connection handle. -/
abbrev Conn := ℕ

/-- `self.connections : Dict[str, Set[WebSocket]]`; each Python set is a
duplicate-free list of handles. -/
abbrev Registry := List (String × List Conn)

/-- `self.connections.get(field, set())`. -/
def regGet (r : Registry) (f : String) : List Conn :=
  (r.lookup f).getD []

/-- Rebind key `f` to the mutated set, as in-place mutation of the Python
set object does. -/
def regSet (r : Registry) (f : String) (s : List Conn) : Registry :=
  r.map (fun p => if p.1 = f then (f, s) else p)

/-- `del self.connections[field]`. -/
def regDel (r : Registry) (f : String) : Registry :=
  r.filter (fun p => p.1 ≠ f)

/-- One iteration of the pruning loop:
`self.connections[field].discard(w)` followed by
`if not self.connections[field]: del self.connections[field]`.
The subscript raises `KeyError` when the key is gone. -/
def discardStep (r : Registry) (f : String) (w : Conn) :
    Except PyError Registry :=
  match r.lookup f with
  | none => .error (.keyError f)
  | some s =>
    let s' := s.filter (fun c => c ≠ w)
    if s'.isEmpty then .ok (regDel r f) else .ok (regSet r f s')

/-- The `for websocket in dead_websockets:` loop. -/
def pruneDead (r : Registry) (f : String) (dead : List Conn) :
    Except PyError Registry :=
  dead.foldlM (fun acc w => discardStep acc f w) r

/-- `WebSocketManager.send_notification`: snapshot the field's set under
the lock; if empty, return; attempt a send to every snapshotted
connection, collecting those whose send raised (`fails`); then, under the
lock again and only if the field is still registered, discard each dead
connection, deleting the field entry when its set empties.  Returns the
list of connections a send was attempted to, and the final registry. -/
def send_notification (r : Registry) (f : String) (fails : Conn → Bool) :
    List Conn × Except PyError Registry :=
  let websockets := regGet r f
  if websockets.isEmpty then ([], .ok r)
  else
    let dead := websockets.filter fails
    if dead.isEmpty then (websockets, .ok r)
    else
      match r.lookup f with
      | none => (websockets, .ok r)
      | some _ => (websockets, pruneDead r f dead)

/-! ## API Gateway (`api-gateway/config.py`, `proxy.py`, `main.py`) -/

/-- `ROUTE_MAP` from `api-gateway/config.py`. -/
def ROUTE_MAP : List (String × String) :=
  [("/login", "auth"), ("/register", "auth"), ("/users", "auth"),
   ("/fields", "field"), ("/sensor-types", "field"),
   ("/compute-ndvi", "image"),
   ("/rules", "intelligent"), ("/archive-alerts", "intelligent"),
   ("/alerts", "intelligent"), ("/ai-prediction", "intelligent"),
   ("/ws/notifications", "notifications")]

def PUBLIC_PATHS : List String := ["/login", "/register"]

/-- `s.startswith(pre)`. -/
def pyStartsWith (s pre : String) : Prop :=
  pre.data <+: s.data

instance (s pre : String) : Decidable (pyStartsWith s pre) :=
  inferInstanceAs (Decidable (pre.data <+: s.data))

/-- Python's `max(matches, key=len)`: the first string of maximal length. -/
def pyMaxByLen (l : List String) : Option String :=
  l.foldl
    (fun acc s =>
      match acc with
      | none => some s
      | some m => if s.length > m.length then some s else some m)
    none

/-- `resolve_service` from `api-gateway/main.py`: collect every route
prefix that equals the path or that, extended with `/`, prefixes it; pick
the longest; return its service. -/
def resolve_service (path : String) : Option String :=
  let matched :=
    (ROUTE_MAP.filter
      (fun p => decide (path = p.1 ∨ pyStartsWith path (p.1 ++ "/")))).map Prod.fst
  match pyMaxByLen matched with
  | none => none
  | some best => ROUTE_MAP.lookup best

/-- An HTTP request as the gateway sees it. -/
structure HttpRequest where
  method : String
  headers : List (String × String)
  queryParams : List (String × String)
  body : String
deriving DecidableEq, Repr

/-- The backend's answer to the proxied call. -/
structure BackendResponse where
  status : Nat
  headers : List (String × String)
  body : String
deriving DecidableEq, Repr

/-- The outbound request `httpx` performs on behalf of the gateway. -/
structure BackendCall where
  method : String
  url : String
  headers : List (String × String)
  params : List (String × String)
  body : String
deriving DecidableEq, Repr

/-- The response relayed back to the client. -/
structure ClientResponse where
  status : Nat
  headers : List (String × String)
  body : String
deriving DecidableEq, Repr

/-- ASCII case folding of one character, as `str.lower` does on the
ASCII header names involved. -/
def pyCharLower (c : Char) : Char :=
  if 'A' ≤ c ∧ c ≤ 'Z' then Char.ofNat (c.toNat + 32) else c

/-- `key.lower()` for ASCII strings. -/
def pyLower (s : String) : String :=
  ⟨s.data.map pyCharLower⟩

/-- `headers.pop(k, None)` on a dict modelled as an association list. -/
def headersPop (hs : List (String × String)) (k : String) :
    List (String × String) :=
  hs.filter (fun p => p.1 ≠ k)

def excluded_headers : List String :=
  ["content-encoding", "transfer-encoding", "connection"]

/-- `proxy_request` from `api-gateway/proxy.py`.  The source computes a
header dict with `host` and `content-length` popped, but then passes
`dict(request.headers)` — the unstripped original — to `client.request`;
the stripped dict is dead.  The relayed response keeps the backend's
status and body and drops the connection-management headers. -/
def proxy_request (req : HttpRequest) (targetBase forwardPath : String)
    (resp : BackendResponse) : BackendCall × ClientResponse :=
  let strippedHeaders := headersPop (headersPop req.headers "host") "content-length"
  let call : BackendCall :=
    { method := req.method
      url := targetBase ++ "/" ++ forwardPath
      headers := req.headers
      params := req.queryParams
      body := req.body }
  let respHeaders :=
    resp.headers.filter (fun p => ¬ excluded_headers.contains (pyLower p.1))
  let _ := strippedHeaders
  (call, { status := resp.status, headers := respHeaders, body := resp.body })

/-- `check_ws_rate_limit` from `api-gateway/main.py` on the counter of one
`ws_ratelimit:` key: with no redis the check is skipped (fail open);
otherwise `INCR`, set the expiry on first access, and raise a 429 when the
incremented count exceeds the limit.  Returns the new counter value and
the outcome. -/
def check_ws_rate_limit (redis : Option Nat) (limit : Nat) :
    Option Nat × Except Nat Unit :=
  match redis with
  | none => (none, .ok ())
  | some count =>
    let current := count + 1
    if current > limit then (some current, .error 429)
    else (some current, .ok ())

/-- Outcome of the rate-limit prefix of `websocket_gateway`: a 429 from
the manual limiter is re-raised as `WebSocketException(code=1013)` before
`websocket.accept()`, so a rejected attempt is never tunnelled. -/
inductive WsGateOutcome where
  | accepted
  | rejected (closeCode : Nat)
deriving DecidableEq, Repr

/-- The rate-limit gate of `websocket_gateway` with `limit=20`,
`window=60`. -/
def websocket_rate_gate (redis : Option Nat) : Option Nat × WsGateOutcome :=
  match check_ws_rate_limit redis 20 with
  | (r', .ok _) => (r', .accepted)
  | (r', .error _) => (r', .rejected 1013)

/-- Outcomes of `n` successive connection attempts from one address inside
a single 60-second window (the counter key does not expire in between);
`redis = none` models an unavailable rate-limit store. -/
def wsAttempts : Nat → Option Nat → List WsGateOutcome
  | 0, _ => []
  | n + 1, redis =>
    let (redis', o) := websocket_rate_gate redis
    o :: wsAttempts n redis'

/-- Result of the HTTP `gateway` endpoint of `api-gateway/main.py`,
abstracting the body of a successful proxy to the resolved service. -/
inductive GatewayResult where
  | httpError (status : Nat)
  | proxied (service : String)
deriving DecidableEq, Repr

/-- The HTTP `gateway` handler from `api-gateway/main.py`, in source
order: reject `/ws*` paths with 400, 404 when no service resolves, 403
for the reserved internal prefix, 401 from `verify_jwt_token` for
non-public paths without a valid bearer token, otherwise proxy. -/
def gateway (path : String) (tokenValid : Bool) : GatewayResult :=
  if pyStartsWith path "/ws" then .httpError 400
  else
    match resolve_service path with
    | none => .httpError 404
    | some service =>
      if pyStartsWith path "/internal" then .httpError 403
      else if ¬ PUBLIC_PATHS.contains path ∧ ¬ tokenValid then .httpError 401
      else .proxied service

/-! ## Concrete inputs used by counterexamples and witnesses -/

/-- A concrete stand-in for `datetime.fromisoformat`, defined on the
timestamp strings the examples use: one aware instant in the past, one
naive instant, one aware instant in the future. -/
def demoFromiso : String → Option PyDateTime := fun s =>
  if s = "2024-01-01T12:00:00+00:00" then some ⟨1704110400, some 0⟩
  else if s = "2024-01-01T12:00:00" then some ⟨1704110400, none⟩
  else if s = "2030-01-01T00:00:00+00:00" then some ⟨1893456000, some 0⟩
  else none

/-- A concrete `datetime.now(timezone.utc)` instant, later than the valid
demo timestamp and earlier than the future one. -/
def demoNow : Int := 1704200000

/-- The scenario payload of the spec: a fully valid reading. -/
def demoPayload : Json := .obj
  [("sensor_type", .str "temperature"), ("value", .num 42),
   ("unit", .str "celsius"), ("timestamp", .str "2024-01-01T12:00:00+00:00")]

def demoTopic : String := "sensors/field7/dev3/temperature"

/-- The valid reading arriving as a live (non-retained) message. -/
def demoValidMsg : MqttMessage := ⟨demoTopic, false, some demoPayload⟩

/-- The same fully valid reading, but redelivered with the retain flag. -/
def demoRetainedMsg : MqttMessage := ⟨demoTopic, true, some demoPayload⟩

def demoRule : Rule := ⟨"r1", "temperature", ">", 40, "too hot", "field7", 1⟩

/-- A valid payload except that its timestamp carries no timezone. -/
def demoNaivePayload : Json := .obj
  [("sensor_type", .str "temperature"), ("value", .num 42),
   ("unit", .str "celsius"), ("timestamp", .str "2024-01-01T12:00:00")]

/-- A valid payload except that its timestamp lies in the future. -/
def demoFuturePayload : Json := .obj
  [("sensor_type", .str "temperature"), ("value", .num 42),
   ("unit", .str "celsius"), ("timestamp", .str "2030-01-01T00:00:00+00:00")]

def demoAlert : AlertMsg := ⟨"temperature", "too hot", "field7", 1⟩

def demoRequest : HttpRequest :=
  ⟨"GET", [("host", "gateway.local"), ("content-length", "17"), ("accept", "*/*")],
   [("q", "1")], "body"⟩

def demoBackendResp : BackendResponse :=
  ⟨200, [("Content-Encoding", "gzip"), ("x-custom", "y")], "payload"⟩

/-! ## C1 — ingestion publishes exactly one reading per valid message -/

/-- A payload that passed validation supports all four dict reads the
conversion performs afterwards. -/
lemma validate_ok_subscripts (fromiso : String → Option PyDateTime) (now : Int)
    (data : Json) (h : validate_payload fromiso now data = .ok) :
    (∃ x, pySubscript data "sensor_type" = .ok x) ∧
    (∃ x, pySubscript data "value" = .ok x) ∧
    (∃ x, pySubscript data "unit" = .ok x) ∧
    (∃ x, pySubscript data "timestamp" = .ok x) := by
  unfold validate_payload at h
  repeat' split at h
  all_goals simp_all

/-- C1 as amended: for every **non-retained** MQTT message on a topic
with at least 4 slash-separated segments whose JSON payload passes
validation, the loop publishes exactly one reading, with routing key
`field.<field>.device.<device>` built from the second and third topic
segments. -/
theorem c1_publish_exactly_one (fromiso : String → Option PyDateTime) (now : Int)
    (m : MqttMessage) (p0 f d p3 : String) (rest : List String)
    (hretain : m.retain = false)
    (hsplit : pySplit m.topic = p0 :: f :: d :: p3 :: rest)
    (data : Json) (hdata : m.payload = some data)
    (hvalid : validate_payload fromiso now data = .ok) :
    ∃ r : SensorReading,
      mqtt_loop_step fromiso now m = .ok [("field." ++ f ++ ".device." ++ d, r)] ∧
      r.field_id = f ∧ r.sensor_id = d := by
  have htopic : m.topic ≠ SYSTEM_STATUS_TOPIC := by
    intro he
    rw [he] at hsplit
    have hs : pySplit SYSTEM_STATUS_TOPIC = ["system", "gateway", "status"] := by decide
    rw [hs] at hsplit
    simp at hsplit
  obtain ⟨⟨st, hst⟩, ⟨v, hv⟩, ⟨u, hu⟩, ⟨ts, hts⟩⟩ :=
    validate_ok_subscripts fromiso now data hvalid
  refine ⟨⟨d, f, st, v, u, ts⟩, ?_, rfl, rfl⟩
  unfold mqtt_loop_step
  rw [if_neg htopic, if_neg (by simp [hretain])]
  unfold mqtt_to_sensor_reading
  rw [hsplit, hdata]
  simp only [hvalid, hst, hv, hu, hts]
  rfl

/-- C1 counterexample to the claim as stated: a retained message on a
4-segment sensors topic whose payload passes validation is published zero
times, not exactly once. -/
theorem c1_counterexample :
    pySplit demoRetainedMsg.topic = ["sensors", "field7", "dev3", "temperature"] ∧
    demoRetainedMsg.payload = some demoPayload ∧
    validate_payload demoFromiso demoNow demoPayload = .ok ∧
    mqtt_loop_step demoFromiso demoNow demoRetainedMsg = .ok [] :=
  ⟨by decide, rfl, rfl, rfl⟩

/-- C1 witness: the live (non-retained) copy of the same message is
published exactly once with routing key `field.field7.device.dev3`. -/
theorem c1_publish_exactly_one_witness :
    demoValidMsg.retain = false ∧
    ∃ r : SensorReading,
      mqtt_loop_step demoFromiso demoNow demoValidMsg
        = .ok [("field." ++ "field7" ++ ".device." ++ "dev3", r)] ∧
      r.field_id = "field7" ∧ r.sensor_id = "dev3" :=
  ⟨rfl, c1_publish_exactly_one demoFromiso demoNow demoValidMsg
    "sensors" "field7" "dev3" "temperature" [] rfl (by decide) demoPayload rfl rfl⟩

/-! ## C2 — malformed messages are dropped without aborting the loop -/

/-- C2 (code bug): the listed malformed inputs — short topic, unparseable
payload, JSON object missing required fields, timezone-naive timestamp,
future timestamp — are logged and dropped without an error, but a scalar
JSON payload (which equally misses every required field) makes the
membership test `field in payload` raise `TypeError`; re-wrapped as
`ValueError`, it escapes the message-handling step and aborts the
subscription loop, contradicting the drop-and-log contract. -/
theorem c2_malformed_payloads :
    mqtt_loop_step demoFromiso demoNow ⟨"sensors/field7", false, some demoPayload⟩ = .ok [] ∧
    mqtt_loop_step demoFromiso demoNow ⟨demoTopic, false, none⟩ = .ok [] ∧
    mqtt_loop_step demoFromiso demoNow ⟨demoTopic, false, some (.obj [("value", .num 42)])⟩ = .ok [] ∧
    mqtt_loop_step demoFromiso demoNow ⟨demoTopic, false, some demoNaivePayload⟩ = .ok [] ∧
    mqtt_loop_step demoFromiso demoNow ⟨demoTopic, false, some demoFuturePayload⟩ = .ok [] ∧
    mqtt_loop_step demoFromiso demoNow ⟨demoTopic, false, some (.num 5)⟩ = .error .typeError :=
  ⟨rfl, rfl, rfl, rfl, rfl, rfl⟩

/-! ## C3 — alerts are published only after the commit succeeded -/

/-- C3: in the alert handler, no alert is published before the database
commit of its batch: when the commit raises, zero alerts are published
and the message is requeued; every publish in the effect trace is
preceded by a successful commit and carries routing key
`alerts.<field>`. -/
theorem c3_publish_only_after_commit (alerts : List AlertMsg) (commitOk : Bool) :
    (commitOk = false →
      (handle_message alerts commitOk).1.filter isPublishEffect = [] ∧
      (alerts ≠ [] → (handle_message alerts commitOk).2 = .requeue)) ∧
    (∀ (i : ℕ) (rk : String),
      (handle_message alerts commitOk).1[i]? = some (HandlerEffect.publish rk) →
      commitOk = true ∧
      (∃ j, j < i ∧ (handle_message alerts commitOk).1[j]? = some HandlerEffect.dbCommit) ∧
      ∃ a ∈ alerts, rk = ROUTING_KEY_PREFIX ++ a.field) := by
  by_cases ha : alerts.isEmpty
  · constructor
    · intro _
      refine ⟨by simp [handle_message, ha], fun hne => ?_⟩
      exact absurd (List.isEmpty_iff.1 ha) hne
    · intro i rk h
      simp [handle_message, ha] at h
  · simp only [Bool.not_eq_true] at ha
    cases hc : commitOk with
    | false =>
      have htr : (handle_message alerts false).1
          = alerts.map HandlerEffect.dbAdd ++ [HandlerEffect.dbRollback] := by
        simp [handle_message, ha]
      constructor
      · intro _
        refine ⟨?_, fun _ => by simp [handle_message, ha]⟩
        rw [htr]
        simp [List.filter_append, List.filter_map, isPublishEffect, Function.comp]
      · intro i rk h
        exfalso
        rw [htr] at h
        have hm := List.getElem?_mem h
        simp [List.mem_append, List.mem_map] at hm
    | true =>
      have htr : (handle_message alerts true).1
          = (alerts.map HandlerEffect.dbAdd ++ [HandlerEffect.dbCommit])
            ++ alerts.map (fun a => HandlerEffect.publish (ROUTING_KEY_PREFIX ++ a.field)) := by
        simp [handle_message, ha]
      refine ⟨fun hfalse => absurd hfalse (by simp), ?_⟩
      intro i rk h
      rw [htr] at h
      set A := alerts.map HandlerEffect.dbAdd with hA
      have hi : (A ++ [HandlerEffect.dbCommit]).length ≤ i := by
        by_contra hlt
        push_neg at hlt
        rw [List.getElem?_append_left hlt] at h
        rcases lt_or_ge i A.length with h2 | h2
        · rw [List.getElem?_append_left h2, hA, List.getElem?_map] at h
          cases halt : alerts[i]? <;> rw [halt] at h <;> simp at h
        · rw [List.getElem?_append_right h2] at h
          have hz : i - A.length = 0 := by
            simp only [List.length_append, List.length_cons, List.length_nil] at hlt
            omega
          rw [hz] at h
          simp at h
      refine ⟨rfl, ⟨A.length, ?_, ?_⟩, ?_⟩
      · simp only [List.length_append, List.length_cons, List.length_nil] at hi
        omega
      · rw [htr]
        rw [List.getElem?_append_left (by simp), List.getElem?_append_right (le_refl _)]
        simp
      · rw [List.getElem?_append_right hi] at h
        have hm := List.getElem?_mem h
        simp only [List.mem_map] at hm
        obtain ⟨a, hmem, heq⟩ := hm
        exact ⟨a, hmem, by injection heq with h'; exact h'.symm⟩

/-- C3 witness: with one alert and a failing commit, nothing is published
and the message is requeued. -/
theorem c3_publish_only_after_commit_witness :
    (handle_message [demoAlert] false).1.filter isPublishEffect = [] ∧
    (handle_message [demoAlert] false).2 = .requeue := by
  have h := (c3_publish_only_after_commit [demoAlert] false).1 rfl
  exact ⟨h.1, h.2 (by simp)⟩

/-! ## C4 — broadcast delivers to the snapshot and prunes failed sockets -/

lemma regSet_cons (a : String) (b : List Conn) (t : Registry) (f : String) (s : List Conn) :
    regSet ((a, b) :: t) f s = (if a = f then (f, s) else (a, b)) :: regSet t f s := by
  simp [regSet]

lemma lookup_regSet (r : Registry) (f : String) (s₀ s : List Conn)
    (h : r.lookup f = some s₀) : (regSet r f s).lookup f = some s := by
  induction r with
  | nil => simp at h
  | cons p t ih =>
    obtain ⟨a, b⟩ := p
    rw [regSet_cons]
    by_cases hp : a = f
    · rw [if_pos hp]
      simp
    · have hbeq : (f == a) = false := beq_eq_false_iff_ne.mpr (fun he => hp he.symm)
      rw [List.lookup_cons, hbeq] at h
      rw [if_neg hp, List.lookup_cons, hbeq]
      exact ih h

lemma lookup_regDel (r : Registry) (f : String) :
    (regDel r f).lookup f = none := by
  induction r with
  | nil => rfl
  | cons p t ih =>
    obtain ⟨a, b⟩ := p
    by_cases hp : a = f
    · simpa [regDel, hp] using ih
    · have hbeq : (f == a) = false := beq_eq_false_iff_ne.mpr (fun he => hp he.symm)
      simp only [regDel, List.filter_cons]
      rw [if_pos (by simp [hp])]
      rw [List.lookup_cons, hbeq]
      simpa [regDel] using ih

/-- Behaviour of the second locked pass: pruning a non-empty list of dead
connections out of a registered, non-empty, duplicate-free set never hits
the `KeyError` latent in the once-checked `if field in self.connections`
guard, and leaves exactly the surviving connections — or no entry at all
when none survive. -/
lemma pruneDead_spec (dead : List Conn) :
    ∀ (r : Registry) (f : String) (s : List Conn),
      r.lookup f = some s → s ≠ [] → s.Nodup → dead.Nodup →
      (∀ w ∈ dead, w ∈ s) →
      ∃ r', pruneDead r f dead = .ok r' ∧
        r'.lookup f =
          (if s.filter (fun c => decide (c ∉ dead)) = [] then none
           else some (s.filter (fun c => decide (c ∉ dead)))) := by
  induction dead with
  | nil =>
    intro r f s hr hne _ _ _
    refine ⟨r, rfl, ?_⟩
    have hfe : s.filter (fun c => decide (c ∉ ([] : List Conn))) = s := by
      simp
    rw [hfe, if_neg hne, hr]
  | cons w rest ih =>
    intro r f s hr hne hnd hdnd hsub
    have hstep : pruneDead r f (w :: rest)
        = (discardStep r f w) >>= (fun r₁ => pruneDead r₁ f rest) := rfl
    have hds : discardStep r f w
        = (if (s.filter (fun c => decide (c ≠ w))).isEmpty
           then .ok (regDel r f)
           else .ok (regSet r f (s.filter (fun c => decide (c ≠ w))))) := by
      simp [discardStep, hr]
    set s' := s.filter (fun c => decide (c ≠ w)) with hs'
    by_cases he : s'.isEmpty
    · have hsw : ∀ x ∈ s, x = w := by
        intro x hx
        by_contra hxw
        have hmem : x ∈ s' := by
          rw [hs']
          exact List.mem_filter.2 ⟨hx, by simpa using hxw⟩
        rw [List.isEmpty_iff] at he
        rw [he] at hmem
        cases hmem
      have hrest : rest = [] := by
        cases rest with
        | nil => rfl
        | cons y t =>
          have hy : y ∈ s := hsub y (by simp)
          have hyw : y = w := hsw y hy
          have hwnr : w ∉ y :: t := (List.nodup_cons.1 hdnd).1
          exact absurd (by simp [hyw] : w ∈ y :: t) hwnr
      subst hrest
      refine ⟨regDel r f, ?_, ?_⟩
      · rw [hstep, hds, if_pos he]
        rfl
      · rw [lookup_regDel]
        have hfe : s.filter (fun c => decide (c ∉ [w])) = [] := by
          rw [List.filter_eq_nil_iff]
          intro x hx
          simp [hsw x hx]
        rw [hfe, if_pos rfl]
    · have hne' : s' ≠ [] := fun hh => he (by rw [hh]; rfl)
      have hr₁ : (regSet r f s').lookup f = some s' := lookup_regSet r f s s' hr
      have hnd' : s'.Nodup := hnd.filter _
      have hdnd' : rest.Nodup := (List.nodup_cons.1 hdnd).2
      have hsub' : ∀ x ∈ rest, x ∈ s' := by
        intro x hx
        have hxs : x ∈ s := hsub x (List.mem_cons_of_mem _ hx)
        have hxw : x ≠ w := fun hh => (List.nodup_cons.1 hdnd).1 (hh ▸ hx)
        rw [hs']
        exact List.mem_filter.2 ⟨hxs, by simpa using hxw⟩
      obtain ⟨r', hok, hl⟩ := ih (regSet r f s') f s' hr₁ hne' hnd' hdnd' hsub'
      refine ⟨r', ?_, ?_⟩
      · rw [hstep, hds, if_neg he]
        simpa using hok
      · rw [hl]
        have hff : s'.filter (fun c => decide (c ∉ rest))
            = s.filter (fun c => decide (c ∉ w :: rest)) := by
          rw [hs', List.filter_filter]
          apply List.filter_congr
          intro x _
          simp [List.mem_cons, not_or, Bool.and_comm]
        rw [hff]

/-- C4: `send_notification` attempts delivery exactly to the snapshot of
the field's registered connections (an unregistered field is a no-op);
afterwards every connection whose send raised is gone from the field's
entry, and when pruning empties the set the field's entry itself is
removed from the registry. -/
theorem c4_broadcast_snapshot_prune (r : Registry) (f : String) (fails : Conn → Bool)
    (hnd : (regGet r f).Nodup) :
    (send_notification r f fails).1 = regGet r f ∧
    ∃ r', (send_notification r f fails).2 = .ok r' ∧
      (∀ w ∈ regGet r f, fails w = true → w ∉ regGet r' f) ∧
      ((regGet r f ≠ [] ∧ ∀ w ∈ regGet r f, fails w = true) → r'.lookup f = none) ∧
      (regGet r f = [] → r' = r) := by
  set s := regGet r f with hs
  by_cases hemp : s.isEmpty
  · have hsnil : s = [] := List.isEmpty_iff.1 hemp
    have hsn : send_notification r f fails = ([], .ok r) := by
      simp [send_notification, ← hs, hemp]
    rw [hsn]
    exact ⟨hsnil.symm, r, rfl, by simp [hsnil], fun h => absurd hsnil h.1, fun _ => rfl⟩
  · have hsne : s ≠ [] := fun hh => by rw [hh] at hemp; exact hemp rfl
    set dead := s.filter fails with hd
    by_cases hde : dead.isEmpty
    · have hdnil : dead = [] := List.isEmpty_iff.1 hde
      have hnofail : ∀ w ∈ s, fails w = false := by
        intro w hw
        by_contra hff
        have hwd : w ∈ dead := by
          rw [hd]
          exact List.mem_filter.2 ⟨hw, by simpa using hff⟩
        rw [hdnil] at hwd
        cases hwd
      have hsn : send_notification r f fails = (s, .ok r) := by
        simp [send_notification, ← hs, hemp, ← hd, hde]
      rw [hsn]
      refine ⟨rfl, r, rfl, ?_, ?_, fun hh => absurd hh hsne⟩
      · intro w hw hfw
        rw [hnofail w hw] at hfw
        cases hfw
      · rintro ⟨_, hall⟩
        obtain ⟨w, hw⟩ := List.exists_mem_of_ne_nil s hsne
        exact absurd (hall w hw) (by simp [hnofail w hw])
    · have hlook : r.lookup f = some s := by
        rcases hx : r.lookup f with _ | t
        · exfalso
          apply hsne
          rw [hs]
          unfold regGet
          rw [hx]
          rfl
        · rw [hs]
          unfold regGet
          rw [hx]
          rfl
      have hsn : send_notification r f fails = (s, pruneDead r f dead) := by
        simp [send_notification, ← hs, hemp, ← hd, hde, hlook]
      obtain ⟨r', hok, hl⟩ := pruneDead_spec dead r f s hlook hsne hnd
        (hnd.filter _) (fun w hw => (List.mem_filter.1 hw).1)
      rw [hsn]
      refine ⟨rfl, r', hok, ?_, ?_, fun hh => absurd hh hsne⟩
      · intro w hw hfw
        have hwd : w ∈ dead := by
          rw [hd]
          exact List.mem_filter.2 ⟨hw, by simpa using hfw⟩
        unfold regGet
        rw [hl]
        split
        · simp
        · simp only [Option.getD_some]
          intro hmem
          exact absurd hwd (by simpa using (List.mem_filter.1 hmem).2)
      · rintro ⟨_, hall⟩
        rw [hl]
        have hfe : s.filter (fun c => decide (c ∉ dead)) = [] := by
          rw [List.filter_eq_nil_iff]
          intro x hx
          have hxd : x ∈ dead := by
            rw [hd]
            exact List.mem_filter.2 ⟨hx, hall x hx⟩
          simp [hxd]
        rw [hfe, if_pos rfl]

/-- C4 witness: broadcasting to `field7`'s three registered connections,
where the send to connection 2 raises, attempts all three and leaves only
connections 1 and 3 registered. -/
theorem c4_broadcast_snapshot_prune_witness :
    (regGet [("field7", [1, 2, 3])] "field7").Nodup ∧
    (send_notification [("field7", [1, 2, 3])] "field7" (fun c => decide (c = 2))).1
      = regGet [("field7", [1, 2, 3])] "field7" ∧
    send_notification [("field7", [1, 2, 3])] "field7" (fun c => decide (c = 2))
      = ([1, 2, 3], .ok [("field7", [1, 3])]) := by
  refine ⟨by decide, ?_, by decide⟩
  exact (c4_broadcast_snapshot_prune [("field7", [1, 2, 3])] "field7"
    (fun c => decide (c = 2)) (by decide)).1

/-! ## C5 — rule-violation predicate -/

/-- C5: `violated_rule` is deterministic and total on the three known
conditions — `violated_rule('>',10,5) = true`, `violated_rule('<',10,5) =
false`, `violated_rule('==',5,5) = true` — and raises a `ValueError` for
every other condition string rather than returning false. -/
theorem c5_violated_rule_spec (c : String) (v t : ℚ)
    (h1 : c ≠ ">") (h2 : c ≠ "<") (h3 : c ≠ "==") :
    violated_rule ">" 10 5 = .ok true ∧
    violated_rule "<" 10 5 = .ok false ∧
    violated_rule "==" 5 5 = .ok true ∧
    violated_rule c v t = .error ("Condizione non valida: " ++ c) := by
  refine ⟨by simp [violated_rule]; norm_num, by simp [violated_rule]; norm_num,
    by simp [violated_rule], ?_⟩
  simp [violated_rule, h1, h2, h3]

/-- C5 witness: the unknown condition `!=` errors. -/
theorem c5_violated_rule_spec_witness :
    ("!=" : String) ≠ ">" ∧
    violated_rule "!=" 0 0 = .error "Condizione non valida: !=" :=
  ⟨by decide, (c5_violated_rule_spec "!=" 0 0 (by decide) (by decide) (by decide)).2.2.2⟩

/-! ## C6 — rules cache outage -/

/-- C6 (code bug): with the redis handle absent, `get_rules_for_field`
raises `NameError` on the unassigned local `rules_dict_list` instead of
returning the rules loaded from the durable store; with the handle
present and a cache miss, the same db answer is returned fine. -/
theorem c6_cache_outage_name_error :
    get_rules_for_field none [demoRule] = .error (.nameError "rules_dict_list") ∧
    get_rules_for_field (some none) [demoRule] = .ok [demoRule] :=
  ⟨rfl, rfl⟩

/-! ## C7 — proxied request headers -/

/-- C7 (code bug): the header map actually sent to the backend is the
client's headers unchanged — `host` and `content-length` included — and
differs from the stripped map the source computes and discards; the
response side behaves as claimed (status, body, headers minus the
connection-management headers). -/
theorem c7_headers_forwarded_unstripped :
    (proxy_request demoRequest "http://auth-service:8001" "login" demoBackendResp).1.headers
      = demoRequest.headers ∧
    (proxy_request demoRequest "http://auth-service:8001" "login" demoBackendResp).1.headers
      ≠ headersPop (headersPop demoRequest.headers "host") "content-length" ∧
    (proxy_request demoRequest "http://auth-service:8001" "login" demoBackendResp).2
      = ⟨200, [("x-custom", "y")], "payload"⟩ :=
  ⟨rfl, by decide, by decide⟩

/-! ## C8 — WebSocket connection-rate limit -/

/-- C8: within one 60-second window the first 20 connection attempts from
one address pass the gate and the 21st is rejected with close code 1013
before the socket is accepted; with the rate-limit store unavailable no
attempt is ever blocked. -/
theorem c8_rate_limit_window :
    wsAttempts 21 (some 0) = List.replicate 20 .accepted ++ [.rejected 1013] ∧
    ∀ n, wsAttempts n none = List.replicate n .accepted := by
  refine ⟨by decide, ?_⟩
  intro n
  induction n with
  | zero => rfl
  | succ k ih =>
    simp [wsAttempts, websocket_rate_gate, check_ws_rate_limit, ih,
      List.replicate_succ]

/-! ## C9 — retained messages are always dropped -/

/-- C9: every MQTT message with the retain flag set is dropped by the
subscription loop regardless of its topic: nothing is published even when
the message is a fully valid sensor reading. -/
theorem c9_retained_dropped (fromiso : String → Option PyDateTime) (now : Int)
    (m : MqttMessage) (h : m.retain = true) :
    mqtt_loop_step fromiso now m = .ok [] := by
  by_cases ht : m.topic = SYSTEM_STATUS_TOPIC <;>
    simp [mqtt_loop_step, ht, h]

/-- C9 witness: the retained copy of the fully valid demo reading is
dropped. -/
theorem c9_retained_dropped_witness :
    demoRetainedMsg.retain = true ∧
    mqtt_loop_step demoFromiso demoNow demoRetainedMsg = .ok [] :=
  ⟨rfl, c9_retained_dropped demoFromiso demoNow demoRetainedMsg rfl⟩

/-! ## C10 — internal paths answer 404, never 403, never proxied -/

/-- No route prefix of the static table matches a path under
`/internal`, so `resolve_service` answers `none` there. -/
lemma resolve_service_internal (path : String) (h : pyStartsWith path "/internal") :
    resolve_service path = none := by
  unfold resolve_service
  have hm : ROUTE_MAP.filter
      (fun p => decide (path = p.1 ∨ pyStartsWith path (p.1 ++ "/"))) = [] := by
    rw [List.filter_eq_nil_iff]
    intro p hp
    simp only [decide_eq_true_eq]
    rintro (rfl | hpre)
    · fin_cases hp <;> exact absurd h (by decide)
    · fin_cases hp <;>
        (rcases List.prefix_or_prefix_of_prefix hpre h with h' | h' <;>
          exact absurd h' (by decide))
  rw [hm]
  rfl

/-- C10: every HTTP request whose path starts with `/internal` gets 404
(no route resolves, and the not-found check precedes the internal-prefix
check), so it is never proxied; the 403 branch is unreachable for every
path. -/
theorem c10_internal_not_found (path : String) (tokenValid : Bool) :
    (pyStartsWith path "/internal" → gateway path tokenValid = .httpError 404) ∧
    gateway path tokenValid ≠ .httpError 403 := by
  constructor
  · intro h
    have hws : ¬ pyStartsWith path "/ws" := by
      intro hw
      rcases List.prefix_or_prefix_of_prefix hw h with h' | h' <;>
        exact absurd h' (by decide)
    unfold gateway
    rw [if_neg hws, resolve_service_internal path h]
  · intro hc
    unfold gateway at hc
    by_cases hws : pyStartsWith path "/ws"
    · rw [if_pos hws] at hc
      simp at hc
    · rw [if_neg hws] at hc
      by_cases hint : pyStartsWith path "/internal"
      · rw [resolve_service_internal path hint] at hc
        simp at hc
      · rcases hres : resolve_service path with _ | srv <;> simp only [hres] at hc
        · simp at hc
        · rw [if_neg hint] at hc
          split at hc <;> simp at hc

/-- C10 witness: a concrete internal path answers 404. -/
theorem c10_internal_not_found_witness :
    pyStartsWith "/internal/metrics" "/internal" ∧
    gateway "/internal/metrics" true = .httpError 404 :=
  ⟨by decide, (c10_internal_not_found "/internal/metrics" true).1 (by decide)⟩

end Greenfield
